import Mathlib

/-!
Shallow embedding of the Cash-Advance Management System
(src/src/app/models/cash-advance.model.ts): a TypeScript CashAdvance
interface together with the PostgreSQL schema of the sakada_db database
(tables users, employees, cash_advances, payments, audit_logs; the
audit_trigger_function with its AFTER ROW triggers on cash_advances and
employees; the cash_advance_summary view; and the seeded default admin
user).

Modelling conventions: UUID columns are String; NUMERIC(10,2) amounts are
Int (exact values, scale irrelevant to the stated properties); timestamps
are Nat; nullable columns are Option. The service-layer operations
(submit, approve, reject, markPaid, recordPayment) do not occur in the
repository sources; they are modelled from the specification, as marked
on each definition. A storage operation and the audit entry its trigger
writes are a single state-to-state function, which renders the
transactional coupling of the write and its audit entry.
-/

namespace Sakada

/-- Row of the users table (schema lines 21-31). role is NOT NULL, checked
by users_role_check below; is_active defaults TRUE. -/
structure UserRow where
  id : String
  username : String
  password_hash : String
  email : String
  role : String
  access_level : Int
  created_at : Nat
  last_login : Option Nat
  is_active : Bool
deriving Repr, DecidableEq

/-- Row of the employees table (schema lines 34-50). supervisor_id is a
nullable self-reference governed by fk_supervisor ON DELETE SET NULL. -/
structure EmployeeRow where
  id : String
  user_id : Option String
  first_name : String
  last_name : String
  department : Option String
  supervisor_id : Option String
  hire_date : Nat
  phone_number : Option String
  address : Option String
  position : Option String
  salary_rate : Option Int
deriving Repr, DecidableEq

/-- Row of the cash_advances table (schema lines 53-68), matching the
TypeScript CashAdvance interface where the two overlap. status defaults
to PENDING and is checked by cash_advances_status_check below. -/
structure CashAdvanceRow where
  id : String
  employee_id : String
  amount : Int
  purpose : String
  status : String
  created_at : Nat
  updated_at : Option Nat
  approved_by : Option String
  approved_at : Option Nat
  rejection_reason : Option String
  payment_date : Option Nat
  installment_period : Option Int
  monthly_deduction : Option Int
deriving Repr, DecidableEq

/-- Row of the payments table (schema lines 71-79). payment_type has a
CHECK constraint but no NOT NULL constraint, so it is Option String. -/
structure PaymentRow where
  id : String
  cash_advance_id : String
  amount : Int
  payment_date : Nat
  payment_type : Option String
  reference_number : Option String
  recorded_by : Option String
deriving Repr, DecidableEq

/-- A row value as stored in the JSONB old_values and new_values columns of
audit_logs: row_to_json of a row of one of the two audited tables. -/
inductive RowValue where
  | ca : CashAdvanceRow → RowValue
  | emp : EmployeeRow → RowValue
deriving Repr, DecidableEq

/-- The id column of an audited row, used for COALESCE(NEW.id, OLD.id). -/
def RowValue.rowId : RowValue → String
  | RowValue.ca r => r.id
  | RowValue.emp r => r.id

/-- Row of the audit_logs table (schema lines 82-92). -/
structure AuditLogRow where
  id : String
  user_id : Option String
  action : String
  entity_type : String
  entity_id : Option String
  old_values : Option RowValue
  new_values : Option RowValue
  ip_address : Option String
  created_at : Nat
deriving Repr, DecidableEq

/-- SQL COALESCE on two nullable values: the first when non-null, else the
second. -/
def coalesce {α : Type} : Option α → Option α → Option α
  | some x, _ => some x
  | none, y => y

/-- audit_trigger_function (schema lines 102-123): builds the audit_logs
row the trigger inserts for one row-level write. tg_op is TG_OP, one of
INSERT, UPDATE, DELETE; tg_table_name is TG_TABLE_NAME; oldRow and newRow
are OLD and NEW (absent when the operation has none); current_user_id is
current_setting of app.current_user_id. The inserted row leaves ip_address
null, takes entity_id = COALESCE(NEW.id, OLD.id), old_values only when
TG_OP = DELETE, and new_values only when TG_OP is INSERT or UPDATE. -/
def audit_trigger_function (current_user_id : Option String)
    (tg_op tg_table_name : String) (oldRow newRow : Option RowValue)
    (audit_id : String) (now : Nat) : AuditLogRow :=
  { id := audit_id
    user_id := current_user_id
    action := tg_op
    entity_type := tg_table_name
    entity_id := coalesce (newRow.map RowValue.rowId) (oldRow.map RowValue.rowId)
    old_values := if tg_op = "DELETE" then oldRow else none
    new_values := if tg_op = "INSERT" ∨ tg_op = "UPDATE" then newRow else none
    ip_address := none
    created_at := now }

/-- The whole database state: one list of rows per table. -/
structure Database where
  users : List UserRow
  employees : List EmployeeRow
  cash_advances : List CashAdvanceRow
  payments : List PaymentRow
  audit_logs : List AuditLogRow
deriving Repr, DecidableEq

/-- The error kinds of the specification (spec section 7). -/
inductive ServiceError where
  | ValidationError
  | NotFoundError
  | InvalidStateError
  | BalanceError
  | ConstraintViolation
deriving Repr, DecidableEq

/-- INSERT of one cash_advances row together with the AFTER INSERT row
trigger cash_advances_audit (schema lines 126-128): the new row and its
audit entry appear in the same resulting state. -/
def insertCashAdvance (db : Database) (current_user_id : Option String)
    (row : CashAdvanceRow) (audit_id : String) (now : Nat) : Database :=
  { db with
    cash_advances := db.cash_advances ++ [row]
    audit_logs := db.audit_logs ++
      [audit_trigger_function current_user_id "INSERT" "cash_advances"
        none (some (RowValue.ca row)) audit_id now] }

/-- UPDATE of one cash_advances row (the row whose id equals the old row id
is replaced by the new row) together with the AFTER UPDATE row trigger
cash_advances_audit. -/
def updateCashAdvance (db : Database) (current_user_id : Option String)
    (oldRow newRow : CashAdvanceRow) (audit_id : String) (now : Nat) : Database :=
  { db with
    cash_advances := db.cash_advances.map
      (fun r => if r.id = oldRow.id then newRow else r)
    audit_logs := db.audit_logs ++
      [audit_trigger_function current_user_id "UPDATE" "cash_advances"
        (some (RowValue.ca oldRow)) (some (RowValue.ca newRow)) audit_id now] }

/-- DELETE of one cash_advances row together with the AFTER DELETE row
trigger cash_advances_audit. -/
def deleteCashAdvance (db : Database) (current_user_id : Option String)
    (row : CashAdvanceRow) (audit_id : String) (now : Nat) : Database :=
  { db with
    cash_advances := db.cash_advances.filter (fun r => r.id ≠ row.id)
    audit_logs := db.audit_logs ++
      [audit_trigger_function current_user_id "DELETE" "cash_advances"
        (some (RowValue.ca row)) none audit_id now] }

/-- UPDATE of one employees row together with the AFTER UPDATE row trigger
employees_audit (schema lines 130-132). -/
def updateEmployee (db : Database) (current_user_id : Option String)
    (oldRow newRow : EmployeeRow) (audit_id : String) (now : Nat) : Database :=
  { db with
    employees := db.employees.map
      (fun e => if e.id = oldRow.id then newRow else e)
    audit_logs := db.audit_logs ++
      [audit_trigger_function current_user_id "UPDATE" "employees"
        (some (RowValue.emp oldRow)) (some (RowValue.emp newRow)) audit_id now] }

/-- DELETE of one employees row. The schema puts two foreign keys on
supervisor_id: the inline REFERENCES employees(id) of line 40, which takes
the default ON DELETE NO ACTION, and the named fk_supervisor of lines
46-49 with ON DELETE SET NULL. Both constraints are created, and the
referential-integrity triggers fire in name (that is, creation) order at
the end of the statement, so the NO ACTION check of the inline constraint
runs before the SET NULL action of fk_supervisor: when some remaining row
still references the deleted employee the check sees it and aborts the
delete as a foreign-key violation, changing nothing. A delete therefore
succeeds only for an employee no remaining row references; it removes
exactly that row (the SET NULL action then has no row to update) and the
employees_audit trigger writes the single audit entry of the delete. -/
def deleteEmployee (db : Database) (current_user_id : Option String)
    (emp : EmployeeRow) (audit_id : String) (now : Nat) :
    Except ServiceError Database :=
  let remaining := db.employees.filter (fun e => e.id ≠ emp.id)
  if remaining.any (fun e => e.supervisor_id == some emp.id) then
    Except.error ServiceError.ConstraintViolation
  else
    Except.ok { db with
      employees := remaining
      audit_logs := db.audit_logs ++
        [audit_trigger_function current_user_id "DELETE" "employees"
          (some (RowValue.emp emp)) none audit_id now] }

/-- The CHECK constraint on users.role (schema line 26): role IN
(ADMIN, SUPERVISOR, EMPLOYEE); the column is NOT NULL. -/
def users_role_check (r : UserRow) : Bool :=
  r.role == "ADMIN" || r.role == "SUPERVISOR" || r.role == "EMPLOYEE"

/-- The CHECK constraint on cash_advances.status (schema lines 58-59):
status IN (PENDING, APPROVED, REJECTED, PAID); the column is NOT NULL. -/
def cash_advances_status_check (r : CashAdvanceRow) : Bool :=
  r.status == "PENDING" || r.status == "APPROVED" ||
    r.status == "REJECTED" || r.status == "PAID"

/-- The CHECK constraint on payments.payment_type (schema line 76):
payment_type IN (SALARY_DEDUCTION, CASH, BANK_TRANSFER). The column has no
NOT NULL constraint and a SQL CHECK passes when its expression is NULL, so
a null payment_type satisfies the constraint. -/
def payments_payment_type_check (p : PaymentRow) : Bool :=
  match p.payment_type with
  | none => true
  | some t => t == "SALARY_DEDUCTION" || t == "CASH" || t == "BANK_TRANSFER"

/-- All check constraints of the schema hold of every stored row. -/
def Database.checksOk (db : Database) : Bool :=
  db.users.all users_role_check &&
    db.cash_advances.all cash_advances_status_check &&
    db.payments.all payments_payment_type_check

/-- The payments rows associated with one cash advance. -/
def paymentsFor (db : Database) (caId : String) : List PaymentRow :=
  db.payments.filter (fun p => p.cash_advance_id = caId)

/-- Sum of the payment amounts recorded against one cash advance (zero when
there are none). -/
def totalPaid (db : Database) (caId : String) : Int :=
  ((paymentsFor db caId).map PaymentRow.amount).sum

/-- Modelled from the spec: the service operation submit(employeeId,
amount, reason) is absent from the repository sources (only the schema it
writes to is present). Per spec section 4.1 it validates that the employee
exists and amount is positive, failing with ValidationError otherwise, and
creates a CashAdvance in PENDING with createdAt = now; the insert goes
through the audited storage write. -/
def submit (db : Database) (current_user_id : Option String)
    (employeeId : String) (amount : Int) (reason : String)
    (new_id audit_id : String) (now : Nat) : Except ServiceError Database :=
  if amount ≤ 0 then Except.error ServiceError.ValidationError
  else if db.employees.all (fun e => e.id ≠ employeeId) then
    Except.error ServiceError.ValidationError
  else Except.ok (insertCashAdvance db current_user_id
    { id := new_id, employee_id := employeeId, amount := amount,
      purpose := reason, status := "PENDING", created_at := now,
      updated_at := none, approved_by := none, approved_at := none,
      rejection_reason := none, payment_date := none,
      installment_period := none, monthly_deduction := none } audit_id now)

/-- Modelled from the spec: the service operation approve(advanceId,
approverId, installmentPeriod?, monthlyDeduction?) is absent from the
repository sources. Per spec section 4.1 it is permitted only from
PENDING (InvalidStateError otherwise, NotFoundError when the id is
unknown) and sets status APPROVED, approvedBy, approvedAt and the optional
installment terms; the update goes through the audited storage write. -/
def approve (db : Database) (current_user_id : Option String)
    (advanceId approverId : String)
    (installmentPeriod monthlyDeduction : Option Int)
    (audit_id : String) (now : Nat) : Except ServiceError Database :=
  match db.cash_advances.find? (fun r => r.id = advanceId) with
  | none => Except.error ServiceError.NotFoundError
  | some r =>
    if r.status = "PENDING" then
      Except.ok (updateCashAdvance db current_user_id r
        { r with status := "APPROVED", approved_by := some approverId,
                 approved_at := some now, updated_at := some now,
                 installment_period := installmentPeriod,
                 monthly_deduction := monthlyDeduction } audit_id now)
    else Except.error ServiceError.InvalidStateError

/-- Modelled from the spec: the service operation reject(advanceId,
approverId, reason) is absent from the repository sources. Per spec
section 4.1 it is permitted only from PENDING (InvalidStateError
otherwise, NotFoundError when the id is unknown) and sets status REJECTED
and rejection_reason, recording approvedBy and approvedAt as the acting
user and time; the update goes through the audited storage write. -/
def reject (db : Database) (current_user_id : Option String)
    (advanceId approverId : String) (reason : String)
    (audit_id : String) (now : Nat) : Except ServiceError Database :=
  match db.cash_advances.find? (fun r => r.id = advanceId) with
  | none => Except.error ServiceError.NotFoundError
  | some r =>
    if r.status = "PENDING" then
      Except.ok (updateCashAdvance db current_user_id r
        { r with status := "REJECTED", rejection_reason := some reason,
                 approved_by := some approverId, approved_at := some now,
                 updated_at := some now } audit_id now)
    else Except.error ServiceError.InvalidStateError

/-- Modelled from the spec: the service operation markPaid(advanceId,
paymentDate) is absent from the repository sources. Per spec section 4.1
it is permitted only from APPROVED (InvalidStateError otherwise,
NotFoundError when the id is unknown), requires the outstanding balance to
be fully covered (BalanceError otherwise) and sets status PAID and
payment_date; the update goes through the audited storage write. -/
def markPaid (db : Database) (current_user_id : Option String)
    (advanceId : String) (paymentDate : Nat)
    (audit_id : String) (now : Nat) : Except ServiceError Database :=
  match db.cash_advances.find? (fun r => r.id = advanceId) with
  | none => Except.error ServiceError.NotFoundError
  | some r =>
    if r.status = "APPROVED" then
      if totalPaid db advanceId < r.amount then
        Except.error ServiceError.BalanceError
      else
        Except.ok (updateCashAdvance db current_user_id r
          { r with status := "PAID", payment_date := some paymentDate,
                   updated_at := some now } audit_id now)
    else Except.error ServiceError.InvalidStateError

/-- Modelled from the spec: the service operation recordPayment(advanceId,
amount, type, reference?, recordedBy) is absent from the repository
sources. Per spec section 4.2 it requires the advance to exist
(NotFoundError) in APPROVED or PAID status (InvalidStateError), a positive
amount (ValidationError), and that the running total of payments not
exceed the principal (BalanceError, inserting no row); on success it
appends one payments row. The payments table carries no audit trigger. -/
def recordPayment (db : Database) (advanceId : String) (amount : Int)
    (payment_type : Option String) (reference : Option String)
    (recordedBy : String) (new_id : String) (now : Nat) :
    Except ServiceError Database :=
  match db.cash_advances.find? (fun r => r.id = advanceId) with
  | none => Except.error ServiceError.NotFoundError
  | some r =>
    if r.status = "APPROVED" ∨ r.status = "PAID" then
      if amount ≤ 0 then Except.error ServiceError.ValidationError
      else if r.amount < totalPaid db advanceId + amount then
        Except.error ServiceError.BalanceError
      else Except.ok { db with payments := db.payments ++
        [{ id := new_id, cash_advance_id := advanceId, amount := amount,
           payment_date := now, payment_type := payment_type,
           reference_number := reference, recorded_by := some recordedBy }] }
    else Except.error ServiceError.InvalidStateError

/-- Row of the cash_advance_summary view (schema lines 135-147). -/
structure SummaryRow where
  id : String
  employee_name : String
  amount : Int
  status : String
  created_at : Nat
  total_paid : Int
  remaining_balance : Int
deriving Repr, DecidableEq

/-- The SQL SUM aggregate over a group: NULL when the group contributes no
non-null values (as under a LEFT JOIN with no matching payments row), the
sum otherwise. -/
def sqlSum : List Int → Option Int
  | [] => none
  | x :: xs => some (x :: xs).sum

/-- The cash_advance_summary view (schema lines 135-147): one row per
cash_advances row joined to its employee (the inner JOIN drops an advance
with no matching employee; employees.id is the primary key, so at most one
matches), with total_paid = COALESCE(SUM(p.amount), 0) over the LEFT JOIN
with payments grouped by advance, and remaining_balance = amount minus
that COALESCE. -/
def cash_advance_summary (db : Database) : List SummaryRow :=
  db.cash_advances.filterMap (fun ca =>
    (db.employees.find? (fun e => e.id = ca.employee_id)).map (fun e =>
      { id := ca.id
        employee_name := e.first_name ++ " " ++ e.last_name
        amount := ca.amount
        status := ca.status
        created_at := ca.created_at
        total_paid :=
          (sqlSum ((paymentsFor db ca.id).map PaymentRow.amount)).getD 0
        remaining_balance := ca.amount -
          (sqlSum ((paymentsFor db ca.id).map PaymentRow.amount)).getD 0 }))

/-- The password_hash literal the schema script seeds for the admin user
(schema line 158); the adjacent SQL comment calls it a bcrypt hash of
admin123. -/
def defaultAdminPasswordHash : String :=
  "$2a$12$LQv3c1yqBWVHxkd0LHAkCOYz6TtxMQJqhN8/LewdBPj6f.CbP0pqu"

/-- The default admin user the schema script inserts (schema lines
150-162): explicit username, password_hash, email, role and access_level;
id, created_at and is_active take their column defaults (a fresh UUID, the
current timestamp, TRUE), last_login stays null. -/
def defaultAdminUser (user_id : String) (now : Nat) : UserRow :=
  { id := user_id
    username := "admin"
    password_hash := defaultAdminPasswordHash
    email := "admin@sakada.com"
    role := "ADMIN"
    access_level := 10
    created_at := now
    last_login := none
    is_active := true }

/-- The database state immediately after the schema script runs: every
table empty except users, which holds exactly the seeded admin row (the
users table carries no audit trigger, so audit_logs is empty). -/
def initialDatabase (admin_id : String) (now : Nat) : Database :=
  { users := [defaultAdminUser admin_id now]
    employees := []
    cash_advances := []
    payments := []
    audit_logs := [] }

/-- The status stored inside the new_values of an audit entry, when those
values are a cash_advances row. -/
def newValuesStatus (e : AuditLogRow) : Option String :=
  match e.new_values with
  | some (RowValue.ca r) => some r.status
  | _ => none

/-- Invariant of claim C7 on one cash_advances row: any status beyond
PENDING has both approval fields set, and the two approval fields are
present or absent together. -/
def approvalFieldsOk (r : CashAdvanceRow) : Prop :=
  ((r.status = "APPROVED" ∨ r.status = "REJECTED" ∨ r.status = "PAID") →
    r.approved_by.isSome = true ∧ r.approved_at.isSome = true) ∧
  (r.approved_by.isSome = true ↔ r.approved_at.isSome = true)

instance (r : CashAdvanceRow) : Decidable (approvalFieldsOk r) := by
  unfold approvalFieldsOk
  infer_instance

/-- Concrete employee without a supervisor, for evaluating the theorems. -/
def empA : EmployeeRow :=
  { id := "e1", user_id := none, first_name := "Ana", last_name := "Cruz",
    department := some "HR", supervisor_id := none, hire_date := 1,
    phone_number := none, address := none, position := some "Lead",
    salary_rate := some 300 }

/-- Concrete employee reporting to empA. -/
def empB : EmployeeRow :=
  { id := "e2", user_id := none, first_name := "Ben", last_name := "Cruz",
    department := some "HR", supervisor_id := some "e1", hire_date := 2,
    phone_number := none, address := none, position := some "Clerk",
    salary_rate := some 200 }

/-- Concrete pending cash advance of empA. -/
def caP : CashAdvanceRow :=
  { id := "ca1", employee_id := "e1", amount := 100, purpose := "medical",
    status := "PENDING", created_at := 1, updated_at := none,
    approved_by := none, approved_at := none, rejection_reason := none,
    payment_date := none, installment_period := none,
    monthly_deduction := none }

/-- Concrete approved cash advance of empA. -/
def caA : CashAdvanceRow :=
  { id := "ca2", employee_id := "e1", amount := 100, purpose := "housing",
    status := "APPROVED", created_at := 1, updated_at := some 2,
    approved_by := some "u1", approved_at := some 2,
    rejection_reason := none, payment_date := none,
    installment_period := some 5, monthly_deduction := some 20 }

/-- Concrete payment of 60 against caA. -/
def p60 : PaymentRow :=
  { id := "p1", cash_advance_id := "ca2", amount := 60, payment_date := 3,
    payment_type := some "CASH", reference_number := none,
    recorded_by := some "u1" }

/-- Concrete database state for evaluating the theorems. -/
def dbEx : Database :=
  { users := [defaultAdminUser "u0" 0]
    employees := [empA, empB]
    cash_advances := [caP, caA]
    payments := [p60]
    audit_logs := [] }

/-- The state reached from dbEx by approving the pending advance ca1. -/
def dbExApproved : Database :=
  match approve dbEx none "ca1" "u1" (some 5) (some 20) "a1" 9 with
  | Except.ok d => d
  | Except.error _ => dbEx

/-- The state reached from dbEx by submitting a fresh advance for empA. -/
def dbExSubmitted : Database :=
  match submit dbEx none "e1" 40 "books" "ca3" "a2" 9 with
  | Except.ok d => d
  | Except.error _ => dbEx

/-- The state reached from dbEx by recording a further payment of 40
against the approved advance ca2. -/
def dbExPaid : Database :=
  match recordPayment dbEx "ca2" 40 (some "CASH") none "u1" "p2" 9 with
  | Except.ok d => d
  | Except.error _ => dbEx

/-- The cash_advance_summary row the view yields for the advance ca1 of
dbEx, which has no payments. -/
def summaryCa1 : SummaryRow :=
  { id := "ca1", employee_name := "Ana Cruz", amount := 100,
    status := "PENDING", created_at := 1, total_paid := 0,
    remaining_balance := 100 }

/-- The row the advance ca1 becomes when dbEx is approved into
dbExApproved. -/
def caApproved1 : CashAdvanceRow :=
  { caP with status := "APPROVED", approved_by := some "u1",
             approved_at := some 9, updated_at := some 9,
             installment_period := some 5, monthly_deduction := some 20 }

/-- Concrete payments row whose payment_type is null; the schema check
constraint admits it. -/
def paymentNullType : PaymentRow :=
  { id := "p0", cash_advance_id := "ca2", amount := 1, payment_date := 0,
    payment_type := none, reference_number := none, recorded_by := none }

/-- C10: the database produced by the schema script holds exactly one users
row, the seeded admin account: username admin, email admin@sakada.com,
role ADMIN, access_level 10, active, with the stored password_hash
literal. This theorem evaluates every field the embedding can decide. The
remaining part of the claim, that the stored literal is a bcrypt hash of
admin123 (as the adjacent SQL comment asserts), is false of this literal:
bcrypt of admin123 under the salt embedded in the literal yields a
different string, so the seeded credential does not match the documented
password. -/
theorem C10_seeded_admin_row (admin_id : String) (now : Nat) :
    (initialDatabase admin_id now).users = [defaultAdminUser admin_id now] ∧
    (defaultAdminUser admin_id now).username = "admin" ∧
    (defaultAdminUser admin_id now).email = "admin@sakada.com" ∧
    (defaultAdminUser admin_id now).role = "ADMIN" ∧
    (defaultAdminUser admin_id now).access_level = 10 ∧
    (defaultAdminUser admin_id now).is_active = true ∧
    (defaultAdminUser admin_id now).password_hash =
      "$2a$12$LQv3c1yqBWVHxkd0LHAkCOYz6TtxMQJqhN8/LewdBPj6f.CbP0pqu" :=
  ⟨rfl, rfl, rfl, rfl, rfl, rfl, rfl⟩

/-- C10 witness: the theorem instantiated at a concrete id and time. -/
theorem C10_witness :
    (initialDatabase "u0" 0).users = [defaultAdminUser "u0" 0] ∧
    (defaultAdminUser "u0" 0).username = "admin" ∧
    (defaultAdminUser "u0" 0).email = "admin@sakada.com" ∧
    (defaultAdminUser "u0" 0).role = "ADMIN" ∧
    (defaultAdminUser "u0" 0).access_level = 10 ∧
    (defaultAdminUser "u0" 0).is_active = true ∧
    (defaultAdminUser "u0" 0).password_hash =
      "$2a$12$LQv3c1yqBWVHxkd0LHAkCOYz6TtxMQJqhN8/LewdBPj6f.CbP0pqu" :=
  C10_seeded_admin_row "u0" 0

/-- C4 counterexample: the claim, read on audit_trigger_function, says an
UPDATE writes old_values = the full prior row; but the trigger fills
old_values only when TG_OP = DELETE, so on the concrete update from caP to
caA the entry carries old_values null, refuting the claim. -/
theorem C4_counterexample :
    ¬ ∀ (cu : Option String) (tn : String) (o n : RowValue)
        (aid : String) (now : Nat),
        (audit_trigger_function cu "UPDATE" tn (some o) (some n) aid
          now).old_values = some o := by
  intro h
  have hc := h none "cash_advances" (RowValue.ca caP) (RowValue.ca caA) "a1" 0
  simp [audit_trigger_function] at hc

/-- C4 (amended): the audit entry records the full prior row state only for
a delete (old_values is null for an update), and records the full new row
state for an insert or an update (null for a delete). -/
theorem C4_amended_old_values_only_on_delete
    (cu : Option String) (tn : String) (o n : RowValue)
    (aid : String) (now : Nat) :
    (audit_trigger_function cu "DELETE" tn (some o) none aid now).old_values
        = some o ∧
    (audit_trigger_function cu "UPDATE" tn (some o) (some n) aid
        now).old_values = none ∧
    (audit_trigger_function cu "INSERT" tn none (some n) aid
        now).new_values = some n ∧
    (audit_trigger_function cu "UPDATE" tn (some o) (some n) aid
        now).new_values = some n ∧
    (audit_trigger_function cu "DELETE" tn (some o) none aid now).new_values
        = none := by
  refine ⟨?_, ?_, ?_, ?_, ?_⟩ <;> simp [audit_trigger_function]

/-- C8 counterexample: the claim says every stored payments row has
payment_type in the three-value set, but the column has no NOT NULL
constraint and a SQL CHECK passes on null, so the concrete row
paymentNullType is admitted by the constraint while carrying no payment
type at all. -/
theorem C8_counterexample :
    ¬ ∀ p : PaymentRow, payments_payment_type_check p = true →
        ∃ t, p.payment_type = some t ∧
          (t = "SALARY_DEDUCTION" ∨ t = "CASH" ∨ t = "BANK_TRANSFER") := by
  intro h
  rcases h paymentNullType (by decide) with ⟨t, ht, _⟩
  simp [paymentNullType] at ht

/-- C8 (amended): in a database satisfying all schema check constraints,
every users row has role in ADMIN, SUPERVISOR, EMPLOYEE; every
cash_advances row has status in PENDING, APPROVED, REJECTED, PAID; and
every payments row whose payment_type is present has it in
SALARY_DEDUCTION, CASH, BANK_TRANSFER (payment_type is nullable, so a
stored row may have none). -/
theorem C8_enum_domains (db : Database) (hdb : db.checksOk = true) :
    (∀ u ∈ db.users,
      u.role = "ADMIN" ∨ u.role = "SUPERVISOR" ∨ u.role = "EMPLOYEE") ∧
    (∀ ca ∈ db.cash_advances,
      ca.status = "PENDING" ∨ ca.status = "APPROVED" ∨
        ca.status = "REJECTED" ∨ ca.status = "PAID") ∧
    (∀ p ∈ db.payments, ∀ t, p.payment_type = some t →
      t = "SALARY_DEDUCTION" ∨ t = "CASH" ∨ t = "BANK_TRANSFER") := by
  rcases Bool.and_eq_true_iff.mp hdb with ⟨h12, h3⟩
  rcases Bool.and_eq_true_iff.mp h12 with ⟨h1, h2⟩
  refine ⟨?_, ?_, ?_⟩
  · intro u hu
    have hrow := List.all_eq_true.mp h1 u hu
    simp [users_role_check] at hrow
    tauto
  · intro ca hca
    have hrow := List.all_eq_true.mp h2 ca hca
    simp [cash_advances_status_check] at hrow
    tauto
  · intro p hp t ht
    have hrow := List.all_eq_true.mp h3 p hp
    rw [payments_payment_type_check, ht] at hrow
    simp at hrow
    tauto

/-- C8 witness: the amended theorem applied to the concrete database dbEx,
whose rows all satisfy the schema check constraints. -/
theorem C8_witness :
    (∀ u ∈ dbEx.users,
      u.role = "ADMIN" ∨ u.role = "SUPERVISOR" ∨ u.role = "EMPLOYEE") ∧
    (∀ ca ∈ dbEx.cash_advances,
      ca.status = "PENDING" ∨ ca.status = "APPROVED" ∨
        ca.status = "REJECTED" ∨ ca.status = "PAID") ∧
    (∀ p ∈ dbEx.payments, ∀ t, p.payment_type = some t →
      t = "SALARY_DEDUCTION" ∨ t = "CASH" ∨ t = "BANK_TRANSFER") :=
  C8_enum_domains dbEx (by decide)

/-- C1: when the cash advance found for the given id has status APPROVED,
REJECTED or PAID, both approve and reject fail with InvalidStateError and
return no changed state (the operations are pure, so on an error the
database, in particular the advance and all its fields, is exactly as
before); and either operation returns a new state only when the status
found is PENDING. -/
theorem C1_approve_reject_only_from_PENDING
    (db : Database) (cu : Option String) (advanceId approverId : String)
    (ip md : Option Int) (reason aid : String) (now : Nat)
    (r : CashAdvanceRow)
    (hfind : db.cash_advances.find? (fun x => x.id = advanceId) = some r) :
    ((r.status = "APPROVED" ∨ r.status = "REJECTED" ∨ r.status = "PAID") →
      approve db cu advanceId approverId ip md aid now
          = Except.error ServiceError.InvalidStateError ∧
      reject db cu advanceId approverId reason aid now
          = Except.error ServiceError.InvalidStateError) ∧
    (∀ db2, approve db cu advanceId approverId ip md aid now
        = Except.ok db2 → r.status = "PENDING") ∧
    (∀ db2, reject db cu advanceId approverId reason aid now
        = Except.ok db2 → r.status = "PENDING") := by
  refine ⟨?_, ?_, ?_⟩
  · intro hst
    have hne : r.status ≠ "PENDING" := by
      rcases hst with h | h | h <;> simp [h]
    constructor <;> simp [approve, reject, hfind, hne]
  · intro db2 h
    by_contra hne
    simp [approve, hfind, hne] at h
  · intro db2 h
    by_contra hne
    simp [reject, hfind, hne] at h

/-- C1 witness: on the concrete database dbEx the advance ca2 is APPROVED,
and approve and reject on it both fail with InvalidStateError. -/
theorem C1_witness :
    approve dbEx none "ca2" "u1" none none "a9" 9
        = Except.error ServiceError.InvalidStateError ∧
    reject dbEx none "ca2" "u1" "no" "a9" 9
        = Except.error ServiceError.InvalidStateError :=
  (C1_approve_reject_only_from_PENDING dbEx none "ca2" "u1" none none
    "no" "a9" 9 caA (by decide)).1 (Or.inl rfl)

/-- C6: submit with a non-positive amount fails with ValidationError and
returns no changed state (so no CashAdvance record is created); and submit
preserves positivity of all stored amounts, so a database whose advances
all have positive amount still has that property after any successful
submit. -/
theorem C6_submit_requires_positive_amount
    (db : Database) (cu : Option String) (employeeId : String)
    (amount : Int) (reason new_id aid : String) (now : Nat) :
    (amount ≤ 0 →
      submit db cu employeeId amount reason new_id aid now
        = Except.error ServiceError.ValidationError) ∧
    (∀ db2, submit db cu employeeId amount reason new_id aid now
        = Except.ok db2 →
      (∀ r ∈ db.cash_advances, 0 < r.amount) →
      ∀ r ∈ db2.cash_advances, 0 < r.amount) := by
  constructor
  · intro h
    simp [submit, h]
  · intro db2 h hpos r hr
    rw [submit] at h
    split_ifs at h with h1 h2
    injection h with h
    subst h
    simp [insertCashAdvance] at hr
    rcases hr with hr | hr
    · exact hpos r hr
    · rw [hr]
      simpa using lt_of_not_le h1

/-- C6 witness: on dbEx, submit of amount 0 fails with ValidationError, and
after the successful submit of amount 40 every stored advance still has a
positive amount. -/
theorem C6_witness :
    submit dbEx none "e1" 0 "books" "ca3" "a2" 9
        = Except.error ServiceError.ValidationError ∧
    ∀ r ∈ dbExSubmitted.cash_advances, 0 < r.amount :=
  ⟨(C6_submit_requires_positive_amount dbEx none "e1" 0 "books" "ca3"
      "a2" 9).1 (by decide),
   (C6_submit_requires_positive_amount dbEx none "e1" 40 "books" "ca3"
      "a2" 9).2 dbExSubmitted (by rfl) (by decide)⟩

/-- Appending one payments row for a given advance raises the recorded
total for that advance by exactly the amount of the row. -/
theorem totalPaid_append (db : Database) (p : PaymentRow) (caId : String)
    (hp : p.cash_advance_id = caId) :
    totalPaid { db with payments := db.payments ++ [p] } caId
      = totalPaid db caId + p.amount := by
  simp [totalPaid, paymentsFor, List.filter_append, hp]

/-- C2: a payment attempt that would push the running total of payments
for an advance over its principal fails with BalanceError and returns no
changed state (so no payments row is inserted); and every successful
recordPayment yields a state whose running total for the advance is the
old total plus the new amount and still lies within the principal — so
the sum of payments for an advance never exceeds its amount. -/
theorem C2_payments_never_exceed_principal
    (db : Database) (advanceId : String) (amount : Int)
    (pt ref : Option String) (rb new_id : String) (now : Nat)
    (r : CashAdvanceRow)
    (hfind : db.cash_advances.find? (fun x => x.id = advanceId) = some r) :
    ((r.status = "APPROVED" ∨ r.status = "PAID") → 0 < amount →
      r.amount < totalPaid db advanceId + amount →
      recordPayment db advanceId amount pt ref rb new_id now
          = Except.error ServiceError.BalanceError) ∧
    (∀ db2, recordPayment db advanceId amount pt ref rb new_id now
        = Except.ok db2 →
      totalPaid db2 advanceId = totalPaid db advanceId + amount ∧
      totalPaid db2 advanceId ≤ r.amount) := by
  constructor
  · intro hst hamt hover
    have hle : ¬ amount ≤ 0 := not_le.mpr hamt
    simp [recordPayment, hfind, hst, hle, hover]
  · intro db2 h
    simp only [recordPayment, hfind] at h
    split_ifs at h with h1 h2 h3
    injection h with h
    subst h
    constructor
    · simp [totalPaid_append]
    · have hle := not_lt.mp h3
      simpa [totalPaid_append] using hle

/-- C2 witness: on dbEx the advance ca2 has principal 100 and 60 already
paid; recording 50 more fails with BalanceError, while recording 40
succeeds and brings the total to exactly the principal. -/
theorem C2_witness :
    recordPayment dbEx "ca2" 50 (some "CASH") none "u1" "p9" 9
        = Except.error ServiceError.BalanceError ∧
    (totalPaid dbExPaid "ca2" = totalPaid dbEx "ca2" + 40 ∧
      totalPaid dbExPaid "ca2" ≤ caA.amount) :=
  ⟨(C2_payments_never_exceed_principal dbEx "ca2" 50 (some "CASH") none
      "u1" "p9" 9 caA (by decide)).1 (Or.inl rfl) (by decide) (by decide),
   (C2_payments_never_exceed_principal dbEx "ca2" 40 (some "CASH") none
      "u1" "p2" 9 caA (by decide)).2 dbExPaid (by rfl)⟩

/-- The SQL SUM of a group, defaulted to zero by COALESCE, is the plain
sum of the group values, zero included for the empty group. -/
theorem sqlSum_getD_zero (xs : List Int) : (sqlSum xs).getD 0 = xs.sum := by
  cases xs <;> simp [sqlSum]

/-- C5: every row of the cash_advance_summary view belongs to a stored
advance whose id and amount it carries, with total_paid the sum of the
amounts of the payments recorded against that advance (zero when there
are none) and remaining_balance the amount minus that sum. -/
theorem C5_summary_totals (db : Database) (s : SummaryRow)
    (hs : s ∈ cash_advance_summary db) :
    ∃ ca ∈ db.cash_advances, s.id = ca.id ∧ s.amount = ca.amount ∧
      s.total_paid = totalPaid db ca.id ∧
      s.remaining_balance = ca.amount - totalPaid db ca.id := by
  rcases List.mem_filterMap.mp hs with ⟨ca, hca, hmap⟩
  rcases Option.map_eq_some'.mp hmap with ⟨e, hfind, hrow⟩
  refine ⟨ca, hca, ?_⟩
  rw [← hrow]
  simp [totalPaid, sqlSum_getD_zero]

/-- C5 witness: the view over dbEx yields for the payment-free advance ca1
a row with total_paid zero and remaining_balance the full principal. -/
theorem C5_witness :
    ∃ ca ∈ dbEx.cash_advances, summaryCa1.id = ca.id ∧
      summaryCa1.amount = ca.amount ∧
      summaryCa1.total_paid = totalPaid dbEx ca.id ∧
      summaryCa1.remaining_balance = ca.amount - totalPaid dbEx ca.id :=
  C5_summary_totals dbEx summaryCa1 (by decide)

/-- A row of the state after updateCashAdvance is either the new row or a
row already present before the update. -/
theorem mem_updateCashAdvance (db : Database) (cu : Option String)
    (oldRow newRow : CashAdvanceRow) (aid : String) (now : Nat)
    (r : CashAdvanceRow)
    (hr : r ∈ (updateCashAdvance db cu oldRow newRow aid now).cash_advances) :
    r = newRow ∨ r ∈ db.cash_advances := by
  simp [updateCashAdvance] at hr
  rcases hr with ⟨x, hx, hfx⟩
  by_cases hid : x.id = oldRow.id
  · left
    rw [if_pos hid] at hfx
    exact hfx.symm
  · right
    rw [if_neg hid] at hfx
    exact hfx ▸ hx

/-- C7: the four lifecycle operations preserve the invariant that a cash
advance whose status is APPROVED, REJECTED or PAID has approved_by and
approved_at both set, and that the two fields are present or absent
together; approve and reject set both fields in the same transition out of
PENDING, submit creates the row with both absent, and markPaid keeps them.
Hence every reachable stored advance beyond PENDING carries both fields
and neither field occurs without the other. -/
theorem C7_approval_fields_set_together
    (db : Database) (cu : Option String) (now : Nat)
    (hinv : ∀ r ∈ db.cash_advances, approvalFieldsOk r) :
    (∀ employeeId amount reason new_id aid db2,
      submit db cu employeeId amount reason new_id aid now
          = Except.ok db2 →
      ∀ r ∈ db2.cash_advances, approvalFieldsOk r) ∧
    (∀ advanceId approverId ip md aid db2,
      approve db cu advanceId approverId ip md aid now = Except.ok db2 →
      ∀ r ∈ db2.cash_advances, approvalFieldsOk r) ∧
    (∀ advanceId approverId reason aid db2,
      reject db cu advanceId approverId reason aid now = Except.ok db2 →
      ∀ r ∈ db2.cash_advances, approvalFieldsOk r) ∧
    (∀ advanceId paymentDate aid db2,
      markPaid db cu advanceId paymentDate aid now = Except.ok db2 →
      ∀ r ∈ db2.cash_advances, approvalFieldsOk r) := by
  refine ⟨?_, ?_, ?_, ?_⟩
  · intro employeeId amount reason new_id aid db2 h r hr
    rw [submit] at h
    split_ifs at h
    injection h with h
    subst h
    simp [insertCashAdvance] at hr
    rcases hr with hr | hr
    · exact hinv r hr
    · rw [hr]
      exact ⟨by simp, by simp⟩
  · intro advanceId approverId ip md aid db2 h r hr
    cases hf : db.cash_advances.find? (fun x => x.id = advanceId) with
    | none => simp only [approve, hf] at h; cases h
    | some r0 =>
      simp only [approve, hf] at h
      split_ifs at h
      injection h with h
      subst h
      rcases mem_updateCashAdvance db cu r0 _ aid now r hr with hr | hr
      · rw [hr]
        exact ⟨by simp, by simp⟩
      · exact hinv r hr
  · intro advanceId approverId reason aid db2 h r hr
    cases hf : db.cash_advances.find? (fun x => x.id = advanceId) with
    | none => simp only [reject, hf] at h; cases h
    | some r0 =>
      simp only [reject, hf] at h
      split_ifs at h
      injection h with h
      subst h
      rcases mem_updateCashAdvance db cu r0 _ aid now r hr with hr | hr
      · rw [hr]
        exact ⟨by simp, by simp⟩
      · exact hinv r hr
  · intro advanceId paymentDate aid db2 h r hr
    cases hf : db.cash_advances.find? (fun x => x.id = advanceId) with
    | none => simp only [markPaid, hf] at h; cases h
    | some r0 =>
      simp only [markPaid, hf] at h
      split_ifs at h with h1 h2
      injection h with h
      subst h
      rcases mem_updateCashAdvance db cu r0 _ aid now r hr with hr | hr
      · have h0 := hinv r0 (List.mem_of_find?_eq_some hf)
        have hset := h0.1 (Or.inl h1)
        rw [hr]
        exact ⟨fun _ => by simpa using hset, by simp [hset.1, hset.2]⟩
      · exact hinv r hr

/-- C7 witness: the row the pending advance ca1 of dbEx becomes on
approval is APPROVED with approved_by and approved_at both set, satisfying
the approval-fields invariant. -/
theorem C7_witness : approvalFieldsOk caApproved1 :=
  (C7_approval_fields_set_together dbEx none 9 (by decide)).2.1
    "ca1" "u1" (some 5) (some 20) "a1" dbExApproved (by rfl)
    caApproved1 (by decide)

/-- C9: the claim says deleting an employee referenced as supervisor
clears supervisor_id (and deletes nothing) on the direct reports, which is
what the declared fk_supervisor ON DELETE SET NULL alone would do; but the
inline REFERENCES employees(id) of line 40 adds a second foreign key with
the default ON DELETE NO ACTION whose end-of-statement check runs first
(constraint triggers fire in creation order) while the reports still
reference the deleted row, so the code aborts such a delete as a
foreign-key violation and changes nothing. Evaluated concretely: deleting
empA, whom empB references, from dbEx fails with ConstraintViolation,
while deleting the unreferenced empB succeeds and removes exactly that
row, leaving the other row untouched. -/
theorem C9_supervisor_delete_blocked :
    deleteEmployee dbEx none empA "a9" 9
        = Except.error ServiceError.ConstraintViolation ∧
    ∃ db2, deleteEmployee dbEx none empB "a9" 9 = Except.ok db2 ∧
      db2.employees = [empA] ∧ db2.cash_advances = dbEx.cash_advances := by
  refine ⟨rfl, ?_⟩
  refine ⟨_, rfl, by decide, by decide⟩

/-- C3: every audited row write (insert, update or delete on cash_advances
or employees) yields its table change and exactly one new audit entry for
the written row id in one and the same resulting state — the embedding of
the trigger runs inside the write, so there is no state with the change
but without the entry or with the entry but without the change — and for
an insert or update of a cash advance the entry's new_values carry the
post-write status; in particular each successful approve, reject and
markPaid transition appends exactly one entry whose new_values.status is
the post-transition status. A delete of an employee can succeed only when
no remaining row references it (the duplicate NO ACTION foreign key on
supervisor_id aborts any other delete before anything is written), and a
successful one appends exactly one entry, for the deleted row. -/
theorem C3_transition_writes_one_audit_entry
    (db : Database) (cu : Option String) (aid : String) (now : Nat) :
    (∀ row : CashAdvanceRow, ∃ e : AuditLogRow,
      (insertCashAdvance db cu row aid now).audit_logs
          = db.audit_logs ++ [e] ∧
      (insertCashAdvance db cu row aid now).cash_advances
          = db.cash_advances ++ [row] ∧
      e.entity_type = "cash_advances" ∧ e.entity_id = some row.id ∧
      e.action = "INSERT" ∧ newValuesStatus e = some row.status) ∧
    (∀ oldRow newRow : CashAdvanceRow, ∃ e : AuditLogRow,
      (updateCashAdvance db cu oldRow newRow aid now).audit_logs
          = db.audit_logs ++ [e] ∧
      (updateCashAdvance db cu oldRow newRow aid now).cash_advances
          = db.cash_advances.map
              (fun x => if x.id = oldRow.id then newRow else x) ∧
      e.entity_type = "cash_advances" ∧ e.entity_id = some newRow.id ∧
      e.action = "UPDATE" ∧ newValuesStatus e = some newRow.status) ∧
    (∀ row : CashAdvanceRow, ∃ e : AuditLogRow,
      (deleteCashAdvance db cu row aid now).audit_logs
          = db.audit_logs ++ [e] ∧
      e.entity_type = "cash_advances" ∧ e.entity_id = some row.id ∧
      e.action = "DELETE") ∧
    (∀ oldRow newRow : EmployeeRow, ∃ e : AuditLogRow,
      (updateEmployee db cu oldRow newRow aid now).audit_logs
          = db.audit_logs ++ [e] ∧
      e.entity_type = "employees" ∧ e.entity_id = some newRow.id ∧
      e.action = "UPDATE") ∧
    (∀ (emp : EmployeeRow) (db2 : Database),
      deleteEmployee db cu emp aid now = Except.ok db2 →
      ∃ e : AuditLogRow,
      db2.audit_logs = db.audit_logs ++ [e] ∧
      db2.employees = db.employees.filter (fun x => x.id ≠ emp.id) ∧
      e.entity_type = "employees" ∧ e.entity_id = some emp.id ∧
      e.action = "DELETE") ∧
    (∀ advanceId approverId ip md db2,
      approve db cu advanceId approverId ip md aid now = Except.ok db2 →
      ∃ e, db2.audit_logs = db.audit_logs ++ [e] ∧
        e.entity_id = some advanceId ∧
        newValuesStatus e = some "APPROVED") ∧
    (∀ advanceId approverId reason db2,
      reject db cu advanceId approverId reason aid now = Except.ok db2 →
      ∃ e, db2.audit_logs = db.audit_logs ++ [e] ∧
        e.entity_id = some advanceId ∧
        newValuesStatus e = some "REJECTED") ∧
    (∀ advanceId paymentDate db2,
      markPaid db cu advanceId paymentDate aid now = Except.ok db2 →
      ∃ e, db2.audit_logs = db.audit_logs ++ [e] ∧
        e.entity_id = some advanceId ∧
        newValuesStatus e = some "PAID") := by
  refine ⟨?_, ?_, ?_, ?_, ?_, ?_, ?_, ?_⟩
  · intro row
    refine ⟨_, rfl, rfl, rfl, ?_, rfl, ?_⟩ <;>
      simp [audit_trigger_function, newValuesStatus, coalesce, RowValue.rowId]
  · intro oldRow newRow
    refine ⟨_, rfl, rfl, rfl, ?_, rfl, ?_⟩ <;>
      simp [audit_trigger_function, newValuesStatus, coalesce, RowValue.rowId]
  · intro row
    refine ⟨_, rfl, rfl, ?_, rfl⟩
    simp [audit_trigger_function, coalesce, RowValue.rowId]
  · intro oldRow newRow
    refine ⟨_, rfl, rfl, ?_, rfl⟩
    simp [audit_trigger_function, coalesce, RowValue.rowId]
  · intro emp db2 h
    simp only [deleteEmployee] at h
    split_ifs at h
    injection h with h
    subst h
    refine ⟨_, rfl, rfl, rfl, ?_, rfl⟩
    simp [audit_trigger_function, coalesce, RowValue.rowId]
  · intro advanceId approverId ip md db2 h
    cases hf : db.cash_advances.find? (fun x => x.id = advanceId) with
    | none => simp only [approve, hf] at h; cases h
    | some r0 =>
      simp only [approve, hf] at h
      split_ifs at h
      injection h with h
      subst h
      have hid : r0.id = advanceId := by
        simpa using List.find?_some hf
      refine ⟨_, rfl, ?_, ?_⟩ <;>
        simp [updateCashAdvance, audit_trigger_function, newValuesStatus,
          coalesce, RowValue.rowId, hid]
  · intro advanceId approverId reason db2 h
    cases hf : db.cash_advances.find? (fun x => x.id = advanceId) with
    | none => simp only [reject, hf] at h; cases h
    | some r0 =>
      simp only [reject, hf] at h
      split_ifs at h
      injection h with h
      subst h
      have hid : r0.id = advanceId := by
        simpa using List.find?_some hf
      refine ⟨_, rfl, ?_, ?_⟩ <;>
        simp [updateCashAdvance, audit_trigger_function, newValuesStatus,
          coalesce, RowValue.rowId, hid]
  · intro advanceId paymentDate db2 h
    cases hf : db.cash_advances.find? (fun x => x.id = advanceId) with
    | none => simp only [markPaid, hf] at h; cases h
    | some r0 =>
      simp only [markPaid, hf] at h
      split_ifs at h
      injection h with h
      subst h
      have hid : r0.id = advanceId := by
        simpa using List.find?_some hf
      refine ⟨_, rfl, ?_, ?_⟩ <;>
        simp [updateCashAdvance, audit_trigger_function, newValuesStatus,
          coalesce, RowValue.rowId, hid]

/-- C3 witness: approving the pending advance ca1 of dbEx appends exactly
one audit entry, for entity ca1, whose new_values carry status APPROVED,
in the same state that holds the updated advance. -/
theorem C3_witness :
    ∃ e, dbExApproved.audit_logs = dbEx.audit_logs ++ [e] ∧
      e.entity_id = some "ca1" ∧ newValuesStatus e = some "APPROVED" :=
  (C3_transition_writes_one_audit_entry dbEx none "a1" 9).2.2.2.2.2.1
    "ca1" "u1" (some 5) (some 20) dbExApproved (by rfl)

end Sakada
